import Mathlib

/-
Verification of the sprawl order replication core: a shallow embedding of
src/service/order.go and src/p2p/stream.go, with the wire codec and the
storage/transport collaborators modelled from the spec where the repository
code is generated or external.
-/

/-- Bytes of the Go byte strings; one Nat per byte. -/
abbrev Bytes := List Nat

/-- Peer identity (go-libp2p peer.ID), an opaque identifier. -/
abbrev PeerId := Nat

/-- The key-value store contents: an association list from key to value,
most recent binding first. -/
abbrev Store := List (Bytes × Bytes)

/-- Modelled from the spec: the fixed namespace tag reserved for orders
(interfaces.OrderPrefix, whose defining file is not part of the sources);
a fixed byte string, the bytes of "order-". -/
def OrderPrefix : Bytes := [111, 114, 100, 101, 114, 45]

/-- order.go getOrderStorageKey: strings.Join [OrderPrefix, channelID, orderID]
with the empty separator, i.e. bare concatenation. -/
def getOrderStorageKey (channelID : Bytes) (orderID : Bytes) : Bytes :=
  OrderPrefix ++ channelID ++ orderID

/-- order.go getOrderQueryPrefix: bare concatenation of the namespace tag
and the channel identifier. -/
def getOrderQueryPrefix (channelID : Bytes) : Bytes :=
  OrderPrefix ++ channelID

/-- The wire operations of pb.Operation (service.proto enumeration
CREATE=0, DELETE=1, SYNC_REQUEST=2, SYNC_RECEIVE=3). -/
inductive Operation where
  | CREATE
  | DELETE
  | SYNC_REQUEST
  | SYNC_RECEIVE
deriving DecidableEq, Repr

/-- pb.WireMessage: the transport envelope. -/
structure WireMessage where
  channelID : Bytes
  operation : Operation
  data : Bytes
deriving DecidableEq, Repr

/-- pb.State_OPEN, the open order state of the pb.State enumeration. -/
def State_OPEN : Nat := 0

/-- pb.Order: the replicated trade-intent record. Strings are byte lists;
the timestamp and the numeric fields are naturals (no claim computes with
them, they are only constructed, stored and compared). -/
structure Order where
  id : Bytes
  created : Nat
  asset : Bytes
  counterAsset : Bytes
  amount : Nat
  price : Nat
  state : Nat
deriving DecidableEq, Repr

/-- The Go zero-value pb.Order, what an ignored failed unmarshal leaves. -/
def defaultOrder : Order := ⟨[], 0, [], [], 0, 0, 0⟩

/-- Modelled from the spec: a length-then-content field of the wire codec
(the pb package is protobuf-generated and not part of the sources); an
unambiguous encoding of one byte-string field. -/
def encodeBytesField (l : Bytes) : Bytes := l.length :: l

/-- Reads one length-then-content field, returning it and the remainder. -/
def readBytesField : Bytes → Option (Bytes × Bytes)
  | [] => none
  | n :: rest =>
      if n ≤ rest.length then some (rest.take n, rest.drop n) else none

/-- Numeric tag of an operation on the wire. -/
def opToNat : Operation → Nat
  | .CREATE => 0
  | .DELETE => 1
  | .SYNC_REQUEST => 2
  | .SYNC_RECEIVE => 3

/-- Operation of a numeric wire tag; fails on an unknown tag. -/
def natToOp : Nat → Option Operation
  | 0 => some .CREATE
  | 1 => some .DELETE
  | 2 => some .SYNC_REQUEST
  | 3 => some .SYNC_RECEIVE
  | _ => none

/-- Modelled from the spec: proto.Marshal of a WireMessage. -/
def encodeWireMessage (wm : WireMessage) : Bytes :=
  encodeBytesField wm.channelID ++ (opToNat wm.operation :: encodeBytesField wm.data)

/-- Modelled from the spec: proto.Unmarshal of a WireMessage; fails on a
malformed buffer, succeeds exactly on complete well-formed encodings. -/
def decodeWireMessage (buf : Bytes) : Option WireMessage :=
  match readBytesField buf with
  | none => none
  | some (ch, rest) =>
    match rest with
    | [] => none
    | opn :: rest2 =>
      match natToOp opn with
      | none => none
      | some op =>
        match readBytesField rest2 with
        | none => none
        | some (data, rest3) =>
          if rest3 = [] then some ⟨ch, op, data⟩ else none

/-- Modelled from the spec: proto.Marshal of an Order. -/
def encodeOrder (o : Order) : Bytes :=
  encodeBytesField o.id ++ o.created ::
    (encodeBytesField o.asset ++ encodeBytesField o.counterAsset ++
      [o.amount, o.price, o.state])

/-- Modelled from the spec: proto.Unmarshal of an Order. -/
def decodeOrder (buf : Bytes) : Option Order :=
  match readBytesField buf with
  | none => none
  | some (id, rest) =>
    match rest with
    | [] => none
    | created :: rest2 =>
      match readBytesField rest2 with
      | none => none
      | some (asset, rest3) =>
        match readBytesField rest3 with
        | none => none
        | some (counterAsset, rest4) =>
          match rest4 with
          | [amount, price, state] => some ⟨id, created, asset, counterAsset, amount, price, state⟩
          | _ => none

/-- Modelled from the spec: proto.Marshal of an OrderList, a counted
sequence of length-prefixed Order encodings. -/
def encodeOrderList (l : List Order) : Bytes :=
  l.length :: (l.map (fun o => encodeBytesField (encodeOrder o))).flatten

/-- Reads a counted sequence of length-prefixed Order encodings. -/
def decodeOrdersAux : Nat → Bytes → Option (List Order)
  | 0, [] => some []
  | 0, _ => none
  | n + 1, rest =>
    match readBytesField rest with
    | none => none
    | some (blk, rest2) =>
      match decodeOrder blk, decodeOrdersAux n rest2 with
      | some o, some os => some (o :: os)
      | _, _ => none

/-- Modelled from the spec: proto.Unmarshal of an OrderList. -/
def decodeOrderList : Bytes → Option (List Order)
  | [] => none
  | n :: rest => decodeOrdersAux n rest

/-- First binding of a key in the store. -/
def storeLookup : Store → Bytes → Option Bytes
  | [], _ => none
  | (k, v) :: rest, key => if k = key then some v else storeLookup rest key

/-- Removes every binding of a key from the store. -/
def storeDel : Store → Bytes → Store
  | [], _ => []
  | (k, v) :: rest, key =>
      if k = key then storeDel rest key else (k, v) :: storeDel rest key

/-- Binds a key in the store, replacing any previous binding. -/
def storePut (st : Store) (k v : Bytes) : Store :=
  (k, v) :: storeDel st k

/-- The interfaces.Storage collaborator as a pure state machine over Store:
each operation maps a store to a result and (for mutations) a new store.
Implementations may fail; the contract of the spec is realised by
listStorage below. -/
structure StorageModel where
  put : Store → Bytes → Bytes → Except String Store
  get : Store → Bytes → Except String Bytes
  del : Store → Bytes → Except String Store
  getAllWithPrefix : Store → Bytes → Except String (List (Bytes × Bytes))

/-- The storage adapter of the spec contract section 6: Put always
succeeds, Get errors on a missing key, Delete does not error on a missing
key, GetAllWithPrefix returns the bindings whose key extends the prefix. -/
def listStorage : StorageModel where
  put st k v := Except.ok (storePut st k v)
  get st k :=
    match storeLookup st k with
    | some v => Except.ok v
    | none => Except.error "leveldb: not found"
  del st k := Except.ok (storeDel st k)
  getAllWithPrefix st p := Except.ok (st.filter (fun kv => p.isPrefixOf kv.1))

/-- A storage adapter whose Put always fails (a failing disk), otherwise
as listStorage; used to examine the service under storage write failure. -/
def brokenPutStorage : StorageModel :=
  { listStorage with put := fun _ _ _ => Except.error "disk failure" }

/-- A computation that either completes with a value or panics (the Go
runtime fault on a nil dereference). -/
inductive PanicOr (α : Type) where
  | panicked
  | val (a : α)
deriving DecidableEq, Repr

/-- The write half of a p2p Stream value as seen by a caller: input is the
bufio writer pointer, none modelling a nil pointer. -/
structure StreamVal where
  input : Option Unit
deriving DecidableEq, Repr

/-- A stream registered in the stream map; closeErr is the result the
underlying network stream's Close would return. -/
structure StreamObj where
  closeErr : Option String
deriving DecidableEq, Repr

/-- Observable transport effects, in order of occurrence. -/
inductive Effect where
  | sendWire (wm : WireMessage)
  | streamOpened (p : PeerId)
  | streamWrite (data : Bytes)
  | streamClosed (p : PeerId)
deriving DecidableEq, Repr

/-- State of the concrete p2p component: the peer-to-stream map of
stream.go, which peers the host can reach, and the effect trace. -/
structure P2pState where
  streams : List (PeerId × StreamObj)
  reachable : List PeerId
  trace : List Effect
deriving DecidableEq, Repr

/-- Entry of the stream map for a peer; none models the nil pointer a Go
map yields for a missing key. -/
def lookupStream : List (PeerId × StreamObj) → PeerId → Option StreamObj
  | [], _ => none
  | (p, s) :: rest, q => if p = q then some s else lookupStream rest q

/-- Removes a peer's entry from the stream map. -/
def eraseStream (l : List (PeerId × StreamObj)) (q : PeerId) : List (PeerId × StreamObj) :=
  l.filter (fun ps => ps.1 ≠ q)

/-- Result of CloseStream: a returned error-or-nil, or a runtime panic. -/
inductive CloseOutcome where
  | panicked
  | closed (err : Option String) (t : P2pState)
deriving DecidableEq, Repr

/-- stream.go CloseStream: reads the map entry for the peer and calls
Close through it before deleting the entry. A missing key yields the nil
pointer, so the field access panics; a present entry is closed (returning
the underlying close result) and removed. -/
def CloseStream (t : P2pState) (peerID : PeerId) : CloseOutcome :=
  match lookupStream t.streams peerID with
  | none => .panicked
  | some s =>
      .closed s.closeErr
        { t with
          streams := eraseStream t.streams peerID,
          trace := t.trace ++ [Effect.streamClosed peerID] }

/-- stream.go OpenStream. When host.NewStream fails the error is returned.
When it succeeds, the real stream (with its writer) is registered in the
stream map, but the inner declaration newStream shadows the outer zero
Stream variable, and the function returns the outer zero value: the
returned StreamVal has a nil input writer. -/
def OpenStream (t : P2pState) (peerID : PeerId) : Except String StreamVal × P2pState :=
  if peerID ∈ t.reachable then
    (Except.ok ⟨none⟩,
      { t with
        streams := (peerID, ⟨none⟩) :: eraseStream t.streams peerID,
        trace := t.trace ++ [Effect.streamOpened peerID] })
  else
    (Except.error "Stream open failed", t)

/-- stream.go WriteToStream: writes through the stream's input writer and
flushes. A nil writer (the zero Stream value) panics; otherwise the bytes
reach the peer and no error is returned. -/
def WriteToStream (t : P2pState) (sv : StreamVal) (data : Bytes) :
    PanicOr (Option String × P2pState) :=
  match sv.input with
  | none => .panicked
  | some _ => .val (none, { t with trace := t.trace ++ [Effect.streamWrite data] })

/-- p2p Send: broadcasts a WireMessage on its channel topic. -/
def Send (t : P2pState) (wm : WireMessage) : P2pState :=
  { t with trace := t.trace ++ [Effect.sendWire wm] }

/-- The interfaces.P2p collaborator as operations over a transport state;
writeToStream acts on the stream value a caller received from openStream. -/
structure P2pOps (τ : Type) where
  send : τ → WireMessage → τ
  openStream : τ → PeerId → Except String StreamVal × τ
  writeToStream : τ → StreamVal → Bytes → PanicOr (Option String × τ)
  closeStream : τ → PeerId → PanicOr (Option String × τ)

/-- The concrete p2p implementation of src/p2p/stream.go. -/
def realP2pOps : P2pOps P2pState where
  send := Send
  openStream := OpenStream
  writeToStream := WriteToStream
  closeStream := fun t p =>
    match CloseStream t p with
    | .panicked => .panicked
    | .closed e t2 => .val (e, t2)

/-- order.go SyncState: a Go int-valued latch. -/
abbrev SyncState := Int

/-- order.go UpToDate: channel orders are up to date. -/
def UpToDate : SyncState := 0

/-- order.go OutOfDate: channel orders are out of date. -/
def OutOfDate : SyncState := 1

/-- The mutable state of an OrderService held directly in the struct: the
sync latch (storage and transport are passed to the operations). -/
structure OrderServiceState where
  syncState : SyncState
deriving DecidableEq, Repr

/-- A freshly constructed OrderService: Go zero value of the struct, whose
syncState int field is zero. -/
def newOrderService : OrderServiceState := ⟨0⟩

/-- order.go SetSyncState (the mutex only orders concurrent access and has
no sequential effect). -/
def SetSyncState (s : OrderServiceState) (syncState : SyncState) : OrderServiceState :=
  { s with syncState := syncState }

/-- order.go GetSyncState. -/
def GetSyncState (s : OrderServiceState) : SyncState :=
  s.syncState

/-- What a call to Receive comes to: a runtime panic, or a return carrying
the returned error (none for nil), the resulting store contents and the
resulting transport state. -/
inductive ReceiveResult (τ : Type) where
  | panicked
  | done (err : Option String) (store : Store) (p2p : Option τ)
deriving DecidableEq, Repr

/-- order.go Receive: decodes the envelope, then (when a storage is
registered) dispatches on the operation. CREATE stores the received order
bytes verbatim under the channel/id key. DELETE removes that key.
SYNC_REQUEST scans the channel prefix, assembles and encodes an OrderList
(a failed order decode leaves the zero-value order, its error being
discarded), wraps it in a SYNC_RECEIVE envelope and sends it over a
direct stream to the sender; the transport is used without a nil check
here. SYNC_RECEIVE re-encodes and stores each received order, put errors
inside the loop being swallowed by the shadowed error variable. With no
storage registered the message is dropped and nil returned. -/
def Receive {τ : Type} (ops : P2pOps τ) (storage : Option StorageModel)
    (p2p : Option τ) (st : Store) (buf : Bytes) (fromPeer : PeerId) :
    ReceiveResult τ :=
  match decodeWireMessage buf with
  | none => .done (some "Unmarshal wiremessage proto in Receive") st p2p
  | some wm =>
    match storage with
    | none => .done none st p2p
    | some S =>
      match wm.operation with
      | .CREATE =>
        match decodeOrder wm.data with
        | none => .done (some "Unmarshal order proto in Receive") st p2p
        | some order =>
          match S.put st (getOrderStorageKey wm.channelID order.id) wm.data with
          | .ok st2 => .done none st2 p2p
          | .error e => .done (some e) st p2p
      | .DELETE =>
        match decodeOrder wm.data with
        | none => .done (some "Unmarshal order proto in Receive") st p2p
        | some order =>
          match S.del st (getOrderStorageKey wm.channelID order.id) with
          | .ok st2 => .done none st2 p2p
          | .error e => .done (some e) st p2p
      | .SYNC_REQUEST =>
        match S.getAllWithPrefix st (getOrderQueryPrefix wm.channelID) with
        | .error e => .done (some e) st p2p
        | .ok kvs =>
          let orders := kvs.map (fun kv => (decodeOrder kv.2).getD defaultOrder)
          let marshaledData :=
            encodeWireMessage ⟨wm.channelID, .SYNC_RECEIVE, encodeOrderList orders⟩
          match p2p with
          | none => .panicked
          | some t =>
            match ops.openStream t fromPeer with
            | (.error e, t2) => .done (some e) st (some t2)
            | (.ok stream, t2) =>
              match ops.writeToStream t2 stream marshaledData with
              | .panicked => .panicked
              | .val (some e, t3) => .done (some e) st (some t3)
              | .val (none, t3) =>
                match ops.closeStream t3 fromPeer with
                | .panicked => .panicked
                | .val (some e, t4) => .done (some e) st (some t4)
                | .val (none, t4) => .done none st (some t4)
      | .SYNC_RECEIVE =>
        match decodeOrderList wm.data with
        | none => .done (some "Unmarshal order proto in Receive") st p2p
        | some orderList =>
          let st2 := orderList.foldl
            (fun acc order =>
              match S.put acc (getOrderStorageKey wm.channelID order.id) (encodeOrder order) with
              | .ok s2 => s2
              | .error _ => acc) st
          .done none st2 p2p

/-- pb.CreateRequest: a create request record. -/
structure CreateRequest where
  channelID : Bytes
  asset : Bytes
  counterAsset : Bytes
  amount : Nat
  price : Nat
deriving DecidableEq, Repr

/-- Modelled from the spec: the protobuf text serialization in.String()
of a CreateRequest (the generated pb package is not part of the sources);
any fixed unambiguous byte encoding of the request. -/
def serializeCreateRequest (req : CreateRequest) : Bytes :=
  encodeBytesField req.channelID ++ encodeBytesField req.asset ++
    encodeBytesField req.counterAsset ++ [req.amount, req.price]

/-- Modelled from the spec: the text serialization now.String() of a
protobuf timestamp. -/
def serializeTimestamp (now : Nat) : Bytes := [now]

/-- The bytes of the fixed hardcoded secret "mysecret" of order.go Create. -/
def secretBytes : Bytes := [109, 121, 115, 101, 99, 114, 101, 116]

/-- What a call to Create comes to: the returned CreateResponse order, the
returned error, the resulting store and transport state. -/
structure CreateResult (τ : Type) where
  createdOrder : Order
  err : Option String
  store : Store
  p2p : Option τ
deriving DecidableEq, Repr

/-- order.go Create. hmacSha256 is crypto/hmac with sha256 (external),
passed abstractly: keyed hash of key and message. The identifier is the
keyed hash of the serialized request concatenated with the serialized
current timestamp; the order is built with state OPEN, encoded, stored
under its channel/id key (a put error is kept as the returned error), the
CREATE envelope is broadcast when a transport is registered, and the
response carries the constructed order alongside the error. -/
def Create {τ : Type} (hmacSha256 : Bytes → Bytes → Bytes) (ops : P2pOps τ)
    (S : StorageModel) (p2p : Option τ) (st : Store) (req : CreateRequest)
    (now : Nat) : CreateResult τ :=
  let id := hmacSha256 secretBytes (serializeCreateRequest req ++ serializeTimestamp now)
  let order : Order :=
    ⟨id, now, req.asset, req.counterAsset, req.amount, req.price, State_OPEN⟩
  let orderInBytes := encodeOrder order
  let putres :=
    match S.put st (getOrderStorageKey req.channelID id) orderInBytes with
    | .ok s2 => (none, s2)
    | .error e => (some e, st)
  let wireMessage : WireMessage := ⟨req.channelID, .CREATE, orderInBytes⟩
  let p2p2 :=
    match p2p with
    | some t => some (ops.send t wireMessage)
    | none => none
  ⟨order, putres.1, putres.2, p2p2⟩

/-- What a call to Delete comes to: whether the non-nil Empty response was
returned (false on the early error return), the returned error, the
resulting store and transport state. -/
structure DeleteResult (τ : Type) where
  returnedEmpty : Bool
  err : Option String
  store : Store
  p2p : Option τ
deriving DecidableEq, Repr

/-- order.go Delete: reads the order bytes (returning the storage error on
a missing key without further action), broadcasts the DELETE envelope when
a transport is registered, then deletes the key, returning the Empty
response together with any delete error. -/
def Delete {τ : Type} (ops : P2pOps τ) (S : StorageModel) (p2p : Option τ)
    (st : Store) (channelID orderID : Bytes) : DeleteResult τ :=
  match S.get st (getOrderStorageKey channelID orderID) with
  | .error e => ⟨false, some e, st, p2p⟩
  | .ok orderInBytes =>
    let wireMessage : WireMessage := ⟨channelID, .DELETE, orderInBytes⟩
    let p2p2 :=
      match p2p with
      | some t => some (ops.send t wireMessage)
      | none => none
    match S.del st (getOrderStorageKey channelID orderID) with
    | .ok st2 => ⟨true, none, st2, p2p2⟩
    | .error e => ⟨true, some e, st, p2p2⟩

/-- Two sequential calls of the service Delete for the same channel and
order, threading store and transport, yielding the second call's result. -/
def deleteTwice {τ : Type} (ops : P2pOps τ) (p2p : Option τ) (st : Store)
    (channelID orderID : Bytes) : DeleteResult τ :=
  let r1 := Delete ops listStorage p2p st channelID orderID
  Delete ops listStorage r1.p2p r1.store channelID orderID

/-- A put binds its key to its value in the resulting store. -/
theorem storeLookup_storePut (st : Store) (k v : Bytes) :
    storeLookup (storePut st k v) k = some v := by
  simp [storePut, storeLookup]

/-- After a delete the key has no binding. -/
theorem storeLookup_storeDel (st : Store) (k : Bytes) :
    storeLookup (storeDel st k) k = none := by
  induction st with
  | nil => rfl
  | cons kv rest ih =>
    obtain ⟨a, b⟩ := kv
    by_cases h : a = k
    · simpa [storeDel, h] using ih
    · simpa [storeDel, storeLookup, h] using ih

/-- Claim C9: a freshly constructed OrderService reports UpToDate from
GetSyncState before any SetSyncState (the Go zero value of the latch), and
after a sequential SetSyncState x, GetSyncState returns x. -/
theorem claim9_sync_state_default_and_set :
    GetSyncState newOrderService = UpToDate ∧
      ∀ (s : OrderServiceState) (x : SyncState), GetSyncState (SetSyncState s x) = x :=
  ⟨rfl, fun _ _ => rfl⟩

/-- Claim C5: on any buffer whose WireMessage decode fails, Receive returns
the decode error and does nothing further: the store is returned unchanged
and the transport state is returned unchanged, so nothing was written to
any stream. -/
theorem claim5_receive_decode_failure_no_effect {τ : Type} (ops : P2pOps τ)
    (storage : Option StorageModel) (p2p : Option τ) (st : Store) (buf : Bytes)
    (fromPeer : PeerId) (hdec : decodeWireMessage buf = none) :
    Receive ops storage p2p st buf fromPeer =
      ReceiveResult.done (some "Unmarshal wiremessage proto in Receive") st p2p := by
  unfold Receive
  rw [hdec]

/-- Witness for claim C5 at the concrete undecodable buffer []. -/
theorem claim5_receive_decode_failure_no_effect_witness :
    Receive realP2pOps (some listStorage) (some ⟨[], [], []⟩) [] [] 7 =
      ReceiveResult.done (some "Unmarshal wiremessage proto in Receive") []
        (some ⟨[], [], []⟩) :=
  claim5_receive_decode_failure_no_effect realP2pOps (some listStorage)
    (some ⟨[], [], []⟩) [] [] 7 rfl

/-- Claim C1: evaluation of the code at the failing input. With storage and
transport registered, an inbound SYNC_REQUEST for channel [5] from the
reachable peer 7 makes Receive panic instead of writing the SYNC_RECEIVE
envelope and returning no error: OpenStream returns the zero-value Stream
(its inner declaration shadows the returned variable), so the write through
the nil writer faults. -/
theorem claim1_sync_request_response_panics :
    Receive realP2pOps (some listStorage) (some ⟨[], [7], []⟩) [] [1, 5, 2, 0] 7 =
      ReceiveResult.panicked := by
  rfl

/-- Claim C6: evaluation of the code at the failing input. With storage
registered but no transport registered, an inbound well-formed SYNC_REQUEST
makes Receive dereference the nil transport and panic, instead of degrading
gracefully. -/
theorem claim6_receive_no_transport_sync_request_panics :
    Receive (τ := P2pState) realP2pOps (some listStorage) none [] [1, 5, 2, 0] 7 =
      ReceiveResult.panicked := by
  rfl

/-- Counterexample for claim C2: the bare concatenation collides. The pairs
(channel [97, 98], id [99]) and (channel [97], id [98, 99]) are distinct but
produce the same storage key, so the key function is not injective. -/
theorem claim2_key_collision :
    getOrderStorageKey [97, 98] [99] = getOrderStorageKey [97] [98, 99] ∧
      ¬(([97, 98] : Bytes) = [97] ∧ ([99] : Bytes) = [98, 99]) := by
  decide

/-- Claim C2 as amended: the key function is injective on pairs whose
channels have equal length: equal keys then force equal channels and equal
order identifiers. -/
theorem claim2_key_injective_equal_length_channels (c1 id1 c2 id2 : Bytes)
    (hlen : c1.length = c2.length)
    (hkey : getOrderStorageKey c1 id1 = getOrderStorageKey c2 id2) :
    c1 = c2 ∧ id1 = id2 := by
  unfold getOrderStorageKey at hkey
  rw [List.append_assoc, List.append_assoc] at hkey
  exact List.append_inj (List.append_cancel_left hkey) hlen

/-- Witness for the amended claim C2 at concrete equal-length channels. -/
theorem claim2_key_injective_equal_length_channels_witness :
    ([1] : Bytes) = [1] ∧ ([2] : Bytes) = [2] :=
  claim2_key_injective_equal_length_channels [1] [2] [1] [2] rfl rfl

/-- Counterexample for claim C3: with channel A = [97, 98] and the distinct
channel B = [97], the key of the order ([98, 99]) stored under B starts with
the query prefix of A, so a prefix scan for A picks up an order of B. -/
theorem claim3_prefix_scan_cross_channel :
    (getOrderQueryPrefix [97, 98]).isPrefixOf (getOrderStorageKey [97] [98, 99]) = true ∧
      ¬(([97, 98] : Bytes) = [97]) := by
  decide

/-- Claim C3 as amended: for channels neither of which is a prefix of the
other, no key of an order stored under B starts with the query prefix of A,
and a GetAllWithPrefix scan on A's prefix over a store holding only orders
of B returns nothing. -/
theorem claim3_prefix_isolation_amended (A B : Bytes)
    (hAB : ¬ A <+: B) (hBA : ¬ B <+: A) :
    (∀ orderID : Bytes, ¬ getOrderQueryPrefix A <+: getOrderStorageKey B orderID) ∧
      ∀ st : Store,
        (∀ kv ∈ st, ∃ orderID : Bytes, kv.1 = getOrderStorageKey B orderID) →
          listStorage.getAllWithPrefix st (getOrderQueryPrefix A) = Except.ok [] := by
  have key : ∀ orderID : Bytes, ¬ getOrderQueryPrefix A <+: getOrderStorageKey B orderID := by
    intro orderID h
    unfold getOrderQueryPrefix getOrderStorageKey at h
    have h2 : A <+: B ++ orderID := (List.prefix_append_right_inj OrderPrefix).mp h
    rcases List.prefix_or_prefix_of_prefix h2 (List.prefix_append B orderID) with h3 | h3
    · exact hAB h3
    · exact hBA h3
  refine ⟨key, fun st hst => ?_⟩
  have hnil : st.filter (fun kv => (getOrderQueryPrefix A).isPrefixOf kv.1) = [] := by
    rw [List.filter_eq_nil_iff]
    intro kv hkv
    obtain ⟨oid, hk⟩ := hst kv hkv
    rw [hk]
    simpa [List.isPrefixOf_iff_prefix] using key oid
  show Except.ok (st.filter (fun kv => (getOrderQueryPrefix A).isPrefixOf kv.1)) = Except.ok []
  rw [hnil]

/-- Witness for the amended claim C3 at the concrete incomparable channels
[1] and [2] and the order identifier [3]. -/
theorem claim3_prefix_isolation_amended_witness :
    ¬ getOrderQueryPrefix [1] <+: getOrderStorageKey [2] [3] :=
  (claim3_prefix_isolation_amended [1] [2] (by decide) (by decide)).1 [3]

/-- Counterexample for claim C4: over the contract storage adapter (whose
Delete does not error on a missing key), deleting the same channel/order
pair twice in sequence errors on the second call, because Delete first
reads the order bytes for the broadcast and that read fails on the
now-missing key. -/
theorem claim4_second_delete_errors :
    (deleteTwice (τ := P2pState) realP2pOps none
        [(getOrderStorageKey [1] [2], [9])] [1] [2]).err = some "leveldb: not found" := by
  rfl

/-- Claim C4 as amended: for a pair present in storage, the first Delete
removes it; the second call returns an error from the missing-key read,
while still leaving storage without that key. -/
theorem claim4_delete_twice_amended {τ : Type} (ops : P2pOps τ) (p2p : Option τ)
    (st : Store) (channelID orderID : Bytes)
    (hpresent : (storeLookup st (getOrderStorageKey channelID orderID)).isSome = true) :
    (deleteTwice ops p2p st channelID orderID).err.isSome = true ∧
      storeLookup (deleteTwice ops p2p st channelID orderID).store
        (getOrderStorageKey channelID orderID) = none := by
  obtain ⟨v, hv⟩ := Option.isSome_iff_exists.mp hpresent
  simp only [deleteTwice, Delete, listStorage, hv, storeLookup_storeDel]
  simp [storeLookup_storeDel]

/-- Witness for the amended claim C4 at a concrete one-entry store. -/
theorem claim4_delete_twice_amended_witness :
    (deleteTwice (τ := P2pState) realP2pOps none
        [(getOrderStorageKey [3] [4], [9])] [3] [4]).err.isSome = true ∧
      storeLookup (deleteTwice (τ := P2pState) realP2pOps none
          [(getOrderStorageKey [3] [4], [9])] [3] [4]).store
        (getOrderStorageKey [3] [4]) = none :=
  claim4_delete_twice_amended realP2pOps none
    [(getOrderStorageKey [3] [4], [9])] [3] [4] (by decide)

/-- Counterexample for claim C7: CloseStream for a peer with no entry in
the stream map panics (nil map entry dereference) instead of returning an
error. -/
theorem claim7_close_unknown_peer_panics :
    CloseStream ⟨[], [], []⟩ 7 = CloseOutcome.panicked :=
  rfl

/-- Claim C7 as amended: closing a peer with no entry in the stream map
panics rather than returning an error; for a known peer, CloseStream closes
the underlying connection, removes the map entry and returns the close
result. -/
theorem claim7_close_stream_amended (t : P2pState) (peerID : PeerId) :
    (lookupStream t.streams peerID = none → CloseStream t peerID = CloseOutcome.panicked) ∧
      ∀ s : StreamObj, lookupStream t.streams peerID = some s →
        CloseStream t peerID =
          CloseOutcome.closed s.closeErr
            { t with
              streams := eraseStream t.streams peerID,
              trace := t.trace ++ [Effect.streamClosed peerID] } := by
  constructor
  · intro h
    unfold CloseStream
    rw [h]
  · intro s h
    unfold CloseStream
    rw [h]

/-- Witness for the amended claim C7 at a concrete one-entry stream map. -/
theorem claim7_close_stream_amended_witness :
    CloseStream ⟨[(5, ⟨none⟩)], [], []⟩ 5 =
      CloseOutcome.closed none
        { streams := eraseStream [(5, ⟨none⟩)] 5, reachable := [],
          trace := [] ++ [Effect.streamClosed 5] } :=
  (claim7_close_stream_amended ⟨[(5, ⟨none⟩)], [], []⟩ 5).2 ⟨none⟩ rfl

/-- Claim C8: for every create request (any keyed-hash function, transport
registered or not), Create over the contract storage adapter constructs an
order whose id is the keyed hash of the fixed secret over the serialized
request concatenated with the serialized current timestamp, whose state is
OPEN and whose asset, counterAsset, amount and price equal the request's;
it persists the order's encoding under the channel/id storage key, returns
that order, and returns no error (in particular with no transport the call
still succeeds locally). -/
theorem claim8_create_constructs_persists_returns
    (hmacSha256 : Bytes → Bytes → Bytes) (p2p : Option P2pState) (st : Store)
    (req : CreateRequest) (now : Nat) :
    let id := hmacSha256 secretBytes (serializeCreateRequest req ++ serializeTimestamp now)
    let order : Order :=
      ⟨id, now, req.asset, req.counterAsset, req.amount, req.price, State_OPEN⟩
    let r := Create hmacSha256 realP2pOps listStorage p2p st req now
    r.createdOrder = order ∧
      storeLookup r.store (getOrderStorageKey req.channelID id) = some (encodeOrder order) ∧
      r.err = none :=
  ⟨rfl, storeLookup_storePut st _ _, rfl⟩

/-- Claim C10: when the storage put inside Create fails, Create still
broadcasts the CREATE WireMessage on the channel (transport registered) and
still returns the fully constructed order, alongside the storage error; the
store is left unchanged. -/
theorem claim10_create_put_failure_still_broadcasts
    (hmacSha256 : Bytes → Bytes → Bytes) (t : P2pState) (st : Store)
    (req : CreateRequest) (now : Nat) :
    let id := hmacSha256 secretBytes (serializeCreateRequest req ++ serializeTimestamp now)
    let order : Order :=
      ⟨id, now, req.asset, req.counterAsset, req.amount, req.price, State_OPEN⟩
    Create hmacSha256 realP2pOps brokenPutStorage (some t) st req now =
      ⟨order, some "disk failure", st,
        some { t with trace := t.trace ++
          [Effect.sendWire ⟨req.channelID, Operation.CREATE, encodeOrder order⟩] }⟩ :=
  rfl
